import Mathlib

/-!
Verification development for the `myShell` interactive shell (`src/main.cpp`).

The C++ source is shallowly embedded: `std::string` becomes `List Char`,
`std::vector<std::string>` becomes `List (List Char)`, and the scanning loops of
`tokenize` and `splitByPipe` become fuel-indexed structural recursions whose fuel
(`length + 1`) provably covers every iteration the C++ `for` loop performs, since
the index strictly increases on each pass.  `size_t` underflow in the trailing
`start < input.size() - 1` comparisons is modelled explicitly.  The parent-side
descriptor behaviour of `main`'s pipe loop is embedded twice: as an event trace
(which values `dup2`/`close` receive) and as a numbered descriptor table
(which descriptors remain open).  OS primitives (`open`, `waitid`) are modelled
from their POSIX interface, as documented at each definition.
-/

namespace MyShell

/-- Convert a Lean string literal to the `List Char` representation used for
`std::string` throughout this development. -/
def toL (s : String) : List Char := s.toList

/-- The `'\0'` character: what `std::string::operator[]` yields at position
`size()`, and the default used when reading a character defensively. -/
def nullChar : Char := Char.ofNat 0

/-- `input.substr(pos, count)` on the `List Char` model. -/
def substr (s : List Char) (pos count : Nat) : List Char := (s.drop pos).take count

/-- The value of the `size_t` expression `input.size() - 1` from
`src/main.cpp` lines 227 and 261: for an empty string the unsigned
subtraction wraps around to `2^64 - 1`. -/
def sizeSub1 (n : Nat) : Nat := if n = 0 then 18446744073709551615 else n - 1

/-- Index of the closing double quote: the first `j ≥ i` with `s[j] = '"'`,
or `s.length` when there is none.  This is the index at which both quote-
scanning `while` loops of `src/main.cpp` (line 222 and line 251) stop. -/
def scanQuote (s : List Char) (i : Nat) : Nat :=
  i + (s.drop i).findIdx (fun c => c = '"')

/-- The `for` loop of `tokenize` (`src/main.cpp` lines 241-259), as a
fuel-indexed recursion over the loop counter `i`.  State: current index `i`,
current `start`, tokens pushed so far.  Returns the pushed tokens and the
final value of `start`.

Loop body, mirrored clause by clause:
* `input[i] == ' '`: push `input.substr(start, i-start)`, set `start = i+1`;
* `input[i] == '"'`: set `start = ++i`, advance `i` to the closing quote
  (`scanQuote`), push `input.substr(start, i-start)`, set `start = ++i`,
  then skip one following space; the `for` increment then moves `i` one
  further (to `closing + 2`);
* otherwise: nothing.
-/
def tokLoop (s : List Char) : Nat → Nat → Nat → List (List Char) →
    List (List Char) × Nat
  | 0, _, start, toks => (toks, start)
  | fuel + 1, i, start, toks =>
    if i < s.length then
      let c := s.getD i nullChar
      if c = ' ' then
        tokLoop s fuel (i + 1) (i + 1) (toks ++ [substr s start (i - start)])
      else if c = '"' then
        let j := scanQuote s (i + 1)
        let toks1 := toks ++ [substr s (i + 1) (j - (i + 1))]
        let start1 := j + 1
        let start2 :=
          if start1 < s.length ∧ s.getD start1 nullChar = ' ' then start1 + 1
          else start1
        tokLoop s fuel (j + 2) start2 toks1
      else
        tokLoop s fuel (i + 1) start toks
    else (toks, start)

/-- The scanning phase of `tokenize`: run the loop from `i = 0`, `start = 0`
with enough fuel for every iteration. -/
def tokScan (s : List Char) : List (List Char) × Nat :=
  tokLoop s (s.length + 1) 0 0 []

/-- `tokenize` (`src/main.cpp` lines 237-266): scan, then append the trailing
remainder `input.substr(start)` only when `start < input.size() - 1`
(a `size_t` comparison, hence `sizeSub1`). -/
def tokenize (s : List Char) : List (List Char) :=
  let r := tokScan s
  if r.2 < sizeSub1 s.length then r.1 ++ [s.drop r.2] else r.1

/-- The `for` loop of `splitByPipe` (`src/main.cpp` lines 207-224).  State:
index `i`, current `start`, background flag, segments pushed so far.

Loop body, mirrored clause by clause:
* `input[i] == '&'` sets `background = true` (checked before the branch);
* `input[i] == '|' || input[i] == ';'`: push `input.substr(start, i-start)`,
  set `start = i+1`, then skip one following space;
* `else if input[i] == '"'`: `while (i < size && input[++i] != '"');`
  leaves `i` at the closing quote (`scanQuote` from `i+1`), so the `for`
  increment resumes at `scanQuote + 1`;
* otherwise: nothing.
-/
def pipeLoop (s : List Char) : Nat → Nat → Nat → Bool → List (List Char) →
    List (List Char) × Nat × Bool
  | 0, _, start, bg, out => (out, start, bg)
  | fuel + 1, i, start, bg, out =>
    if i < s.length then
      let c := s.getD i nullChar
      let bg1 := if c = '&' then true else bg
      if c = '|' ∨ c = ';' then
        let out1 := out ++ [substr s start (i - start)]
        let start1 := i + 1
        let start2 :=
          if start1 < s.length ∧ s.getD start1 nullChar = ' ' then start1 + 1
          else start1
        pipeLoop s fuel (i + 1) start2 bg1 out1
      else if c = '"' then
        pipeLoop s fuel (scanQuote s (i + 1) + 1) start bg1 out
      else
        pipeLoop s fuel (i + 1) start bg1 out
    else (out, start, bg)

/-- The scanning phase of `splitByPipe`. -/
def pipeScan (s : List Char) : List (List Char) × Nat × Bool :=
  pipeLoop s (s.length + 1) 0 0 false []

/-- `splitByPipe` (`src/main.cpp` lines 203-235): scan, append the trailing
remainder `input.substr(start)` only when `start < input.size() - 1`
(`size_t` comparison), then append the synthetic marker `"&"` or `"-"`. -/
def splitByPipe (s : List Char) : List (List Char) :=
  let r := pipeScan s
  let out := if r.2.1 < sizeSub1 s.length then r.1 ++ [s.drop r.2.1] else r.1
  out ++ [if r.2.2 then ['&'] else ['-']]

/-- The segment list `main` actually iterates over: `splitByPipe`'s result
after `piped.pop_back()` removed the marker (`src/main.cpp` line 112). -/
def splitByPipeSegs (s : List Char) : List (List Char) :=
  (splitByPipe s).dropLast

/-- The background flag `main` computes: `piped.back() == "&"`
(`src/main.cpp` line 111). -/
def splitBg (s : List Char) : Bool :=
  (splitByPipe s).getLastD [] = toL "&"

/-! ### Redirection: flag constants and the `open` interface

Numeric values are those of glibc on Linux (`<fcntl.h>`, `<sys/stat.h>`),
the platform the source targets; note `S_IWUSR = 0200 = O_EXCL` and
`S_IRUSR = 0400 = O_NOCTTY`, so the permission macros that `src/main.cpp`
misplaces into the flags argument alias real open flags. -/

def O_RDONLY : Nat := 0
def O_WRONLY : Nat := 1
def O_CREAT : Nat := 64
def O_EXCL : Nat := 128
def O_TRUNC : Nat := 512
def O_APPEND : Nat := 1024
def S_IRUSR : Nat := 256
def S_IWUSR : Nat := 128
def S_IRGRP : Nat := 32
def S_IROTH : Nat := 4

/-- `#define FILEFLAGS (O_CREAT | O_WRONLY | O_TRUNC | S_IRUSR | S_IWUSR | S_IRGRP | S_IROTH)`
(`src/main.cpp` line 10). -/
def FILEFLAGS : Nat :=
  O_CREAT ||| O_WRONLY ||| O_TRUNC ||| S_IRUSR ||| S_IWUSR ||| S_IRGRP ||| S_IROTH

/-- `#define FILEFLAGS_APPEND (O_APPEND | O_WRONLY | S_IRUSR | S_IWUSR | S_IRGRP | S_IROTH)`
(`src/main.cpp` line 11). -/
def FILEFLAGS_APPEND : Nat :=
  O_APPEND ||| O_WRONLY ||| S_IRUSR ||| S_IWUSR ||| S_IRGRP ||| S_IROTH

/-- `#define RW_PERMS 0666` (`src/main.cpp` line 12). -/
def RW_PERMS : Nat := 438

/-- Outcome of an `open(2)` call in the model: either a descriptor was
obtained (with the permission bits of the file if this call created it),
or the call failed. -/
inductive OpenOutcome
  | fdOpened (createdWithMode : Option Nat)
  | failed
  deriving DecidableEq

/-- Model of the POSIX `open(2)` interface, the external collaborator the
Redirection Resolver calls: if the file exists, the call fails exactly when
both `O_CREAT` and `O_EXCL` are set (`EEXIST`); if it does not exist, the
call succeeds exactly when `O_CREAT` is set, creating the file with
permission bits `mode & ~umask` (low 12 bits); without `O_CREAT` an absent
file gives `ENOENT`. -/
def openSem (fileExists : Bool) (flags mode umask : Nat) : OpenOutcome :=
  if fileExists then
    if flags &&& O_CREAT ≠ 0 ∧ flags &&& O_EXCL ≠ 0 then .failed
    else .fdOpened none
  else
    if flags &&& O_CREAT ≠ 0 then
      .fdOpened (some (mode &&& (4095 ^^^ (umask &&& 4095))))
    else .failed

/-! ### `run_cmd`: redirection resolution and the launch plan -/

/-- The redirect intent of one segment, in the spec's vocabulary (§3). -/
inductive RedirectSpec
  | noRedirect
  | outputTruncate (path : List Char)
  | outputAppend (path : List Char)
  | input (path : List Char)
  deriving DecidableEq

/-- What `run_cmd` decides to do before `execvp`: the argument vector it
builds (without the terminating null) and the `open`/`dup2` calls it issues
on stdout and stdin (path, flags; the stdout open also passes `RW_PERMS`
as mode). -/
structure LaunchPlan where
  argv : List (List Char)
  stdoutOpen : Option (List Char × Nat)
  stdinOpen : Option (List Char × Nat)
  deriving DecidableEq

/-- The pure content of `run_cmd`'s redirection logic (`src/main.cpp` lines
162-192), mirrored clause by clause on an already tokenized command:
`FFLAGS` starts as `FILEFLAGS` and becomes `FILEFLAGS_APPEND` when the
second-to-last token is `">>"`; an independent `if` opens the last token
with `FFLAGS` onto stdout when the second-to-last token's first character
is `'>'` (for the empty token, `operator[](0)` reads the terminating
`'\0'`), decrementing `ARGC` by 2; another independent `if` opens the last
token read-only onto stdin when the second-to-last token is `"<"`, again
decrementing `ARGC` by 2; the argument vector keeps the first `ARGC - 1`
tokens. -/
def run_cmd_plan (tok : List (List Char)) : LaunchPlan :=
  if 1 < tok.length then
    let sndLast := tok.getD (tok.length - 2) []
    let fflags := if sndLast = toL ">>" then FILEFLAGS_APPEND else FILEFLAGS
    let isOut := sndLast.headD nullChar = '>'
    let isIn := sndLast = toL "<"
    let argc1 := if isOut then tok.length + 1 - 2 else tok.length + 1
    let argc2 := if isIn then argc1 - 2 else argc1
    { argv := tok.take (argc2 - 1)
    , stdoutOpen := if isOut then some (tok.getLastD [], fflags) else none
    , stdinOpen := if isIn then some (tok.getLastD [], O_RDONLY) else none }
  else
    { argv := tok, stdoutOpen := none, stdinOpen := none }

/-- Read a `RedirectSpec` off the launch plan: an stdout open with the
append flag word is an append redirect, any other stdout open a truncating
one, an stdin open an input redirect. -/
def planRedirect (p : LaunchPlan) : RedirectSpec :=
  match p.stdoutOpen with
  | some (path, f) =>
    if f = FILEFLAGS_APPEND then .outputAppend path else .outputTruncate path
  | none =>
    match p.stdinOpen with
    | some (path, _) => .input path
    | none => .noRedirect

/-- Redirection resolution as the source implements it: remaining argument
vector plus recognised redirect. -/
def run_cmd_resolve (tok : List (List Char)) : List (List Char) × RedirectSpec :=
  ((run_cmd_plan tok).argv, planRedirect (run_cmd_plan tok))

/-- Redirection resolution following the spec's words (§4.3): only for more
than one token, inspect the second-to-last token with an `">>"` /
first-character-`'>'` / `"<"` else-if chain, and on a hit drop the last two
tokens.  Stated separately so that agreement with `run_cmd_resolve` is a
theorem. -/
def resolveAsSpecified (tok : List (List Char)) : List (List Char) × RedirectSpec :=
  if 1 < tok.length then
    let sndLast := tok.getD (tok.length - 2) []
    let lastTok := tok.getLastD []
    if sndLast = toL ">>" then (tok.take (tok.length - 2), .outputAppend lastTok)
    else if sndLast.headD nullChar = '>' then
      (tok.take (tok.length - 2), .outputTruncate lastTok)
    else if sndLast = toL "<" then (tok.take (tok.length - 2), .input lastTok)
    else (tok, .noRedirect)
  else (tok, .noRedirect)

/-- The flags and mode with which a resolved redirect reaches `open(2)` in
`run_cmd`: truncating output uses `FILEFLAGS` with mode `RW_PERMS`, append
output uses `FILEFLAGS_APPEND` with mode `RW_PERMS`, input uses `O_RDONLY`. -/
def redirectOpen (r : RedirectSpec) (fileExists : Bool) (umask : Nat) :
    Option OpenOutcome :=
  match r with
  | .outputTruncate _ => some (openSem fileExists FILEFLAGS RW_PERMS umask)
  | .outputAppend _ => some (openSem fileExists FILEFLAGS_APPEND RW_PERMS umask)
  | .input _ => some (openSem fileExists O_RDONLY 0 umask)
  | .noRedirect => none

/-! ### The read loop's non-blocking wait -/

/-- The first argument of `waitid(2)`: which children the call selects. -/
inductive IdType
  | P_ALL
  | P_PID
  deriving DecidableEq

/-- Model of the POSIX `waitid(2)` interface with `WNOHANG`, restricted to
what the call can reap: given the process ids of the caller's zombie
children, `P_ALL` collects one of them (none if there are none), while
`P_PID id` collects the zombie whose process id equals `id` and nothing
otherwise. -/
def waitidReap (t : IdType) (id : Nat) (zombies : List Nat) : Option Nat :=
  match t with
  | .P_ALL => zombies.head?
  | .P_PID => zombies.find? (fun p => p = id)

/-- The wait `main` performs at the top of every loop iteration:
`waitid(P_PID, 0, &status, WNOHANG)` (`src/main.cpp` line 66). -/
def loopReap (zombies : List Nat) : Option Nat :=
  waitidReap .P_PID 0 zombies

/-! ### Parent-side pipe orchestration, as an event trace

`main`'s pipe loop (`src/main.cpp` lines 114-149) declares `int fd[2]`
uninitialized.  This model records, for the parent process on the
fork-succeeds path, the value held by `fd[0]`/`fd[1]` (indeterminate, or
the read/write end of the `i`-th `pipe(fd)` call of the run) and the
arguments of every parent-side `dup2(_, STDIN_FILENO)` and `close(_)`. -/

/-- What the `fd[0]` / `fd[1]` variables denote at some point of a run. -/
inductive FdVal
  | uninit
  | pipeRd (i : Nat)
  | pipeWr (i : Nat)
  deriving DecidableEq

/-- Parent-side trace state of one pipeline run. -/
structure OrchTrace where
  fd0 : FdVal
  fd1 : FdVal
  pipes : Nat
  duped : List FdVal
  closed : List FdVal
  deriving DecidableEq

/-- State at the top of the pipe loop: `fd[2]` uninitialized, no pipes
created, no events. -/
def orchInit : OrchTrace := ⟨.uninit, .uninit, 0, [], []⟩

/-- One iteration of the pipe loop body, parent branch (`src/main.cpp`
lines 118-138): `pipe(fd)` fills `fd` with the ends of pipe number `i`;
then the parent runs `dup2(fd[0], STDIN_FILENO)` and `close(fd[1])`. -/
def orchIter (i : Nat) (s : OrchTrace) : OrchTrace :=
  ⟨.pipeRd i, .pipeWr i, s.pipes + 1,
   s.duped ++ [.pipeRd i], s.closed ++ [.pipeWr i]⟩

/-- Run `k` loop iterations starting at pipe index `i`. -/
def orchLoopGo : Nat → Nat → OrchTrace → OrchTrace
  | 0, _, s => s
  | k + 1, i, s => orchLoopGo k (i + 1) (orchIter i s)

/-- The whole parent-side run for a pipeline of `n` segments: the loop body
executes `n - 1` times (`for (i = 0; i < piped.size() - 1; i++)`), then the
code after the loop runs `dup2(fd[0], STDIN_FILENO)` (line 142), forks the
last child, and runs `close(fd[1])` (line 149). -/
def orchRun (n : Nat) : OrchTrace :=
  let s := orchLoopGo (n - 1) 0 orchInit
  ⟨s.fd0, s.fd1, s.pipes, s.duped ++ [s.fd0], s.closed ++ [s.fd1]⟩

/-- Whether a value handed to `dup2`/`close` is an end of one of the pipes
created by a `pipe` call of this run (`pipes` counts them). -/
def fromThisRun (pipes : Nat) : FdVal → Bool
  | .uninit => false
  | .pipeRd i => decide (i < pipes)
  | .pipeWr i => decide (i < pipes)

/-- The claim predicate: every descriptor value the parent duplicates onto
stdin or closes during the run of an `n`-segment pipeline came from a
`pipe` call of that run. -/
def parentFdsFromPipes (n : Nat) : Bool :=
  ((orchRun n).duped ++ (orchRun n).closed).all (fromThisRun (orchRun n).pipes)

/-! ### Parent-side pipe orchestration, as a numbered descriptor table

To speak about which descriptors remain *open* in the parent, this second
model tracks the parent's descriptor table.  Descriptors 0-2 are the
terminal's standard streams; descriptor 3 is `ORIG_STDIN = dup(STDIN_FILENO)`
(`src/main.cpp` line 56).  `pipe(fd)` allocates the two lowest free
numbers (POSIX), `dup2(a, b)` makes `b` denote what `a` denotes (failing
silently when `a` is not open), `close(a)` frees `a`.  Pipes are numbered
globally by a counter so that ends can be traced across consecutive runs. -/

/-- What an open descriptor denotes. -/
inductive FdObj
  | terminal
  | pipeRd (i : Nat)
  | pipeWr (i : Nat)
  deriving DecidableEq

/-- Set key `n` to `o` in an association-list table (update or append). -/
def tset : List (Nat × FdObj) → Nat → FdObj → List (Nat × FdObj)
  | [], n, o => [(n, o)]
  | (m, p) :: rest, n, o =>
    if m = n then (m, o) :: rest else (m, p) :: tset rest n o

/-- Remove key `n` from the table. -/
def tdel (t : List (Nat × FdObj)) (n : Nat) : List (Nat × FdObj) :=
  t.filter (fun p => p.1 ≠ n)

/-- Look up key `n`. -/
def tget (t : List (Nat × FdObj)) (n : Nat) : Option FdObj :=
  (t.find? (fun p => p.1 = n)).map (fun p => p.2)

/-- Smallest number not used as a key (searched with sufficient fuel). -/
def lowestFreeGo (t : List (Nat × FdObj)) : Nat → Nat → Nat
  | 0, k => k
  | fuel + 1, k => if tget t k = none then k else lowestFreeGo t fuel (k + 1)

/-- Smallest descriptor number not in the table: among `0 .. t.length` at
least one number is free, so fuel `t.length + 1` always suffices. -/
def lowestFree (t : List (Nat × FdObj)) : Nat :=
  lowestFreeGo t (t.length + 1) 0

/-- Parent descriptor-table state: the table, the current contents of the
`fd[2]` array (`none` = indeterminate), and the global pipe counter. -/
structure TableSt where
  table : List (Nat × FdObj)
  fd0 : Option Nat
  fd1 : Option Nat
  pipeCount : Nat
  deriving DecidableEq

/-- Parent state right after startup: stdin/stdout/stderr plus
`ORIG_STDIN` at descriptor 3. -/
def tInit : TableSt :=
  ⟨[(0, .terminal), (1, .terminal), (2, .terminal), (3, .terminal)],
   none, none, 0⟩

/-- `dup2(src, dst)` on the table: no effect when `src` is not open. -/
def dup2T (t : List (Nat × FdObj)) (src dst : Nat) : List (Nat × FdObj) :=
  match tget t src with
  | some o => tset t dst o
  | none => t

/-- `pipe(fd)`: allocate the two lowest free descriptors for the read and
write end of pipe number `pipeCount`, store them in `fd[0]`/`fd[1]`. -/
def tblPipe (s : TableSt) : TableSt :=
  let a := lowestFree s.table
  let t1 := tset s.table a (.pipeRd s.pipeCount)
  let b := lowestFree t1
  ⟨tset t1 b (.pipeWr s.pipeCount), some a, some b, s.pipeCount + 1⟩

/-- Parent's `dup2(fd[0], STDIN_FILENO)`; with `fd` indeterminate the call
receives a junk descriptor and fails without changing the table. -/
def tblDup2Stdin (s : TableSt) : TableSt :=
  match s.fd0 with
  | some a => ⟨dup2T s.table a 0, s.fd0, s.fd1, s.pipeCount⟩
  | none => s

/-- Parent's `close(fd[1])`; with `fd` indeterminate the call fails and
changes nothing. -/
def tblCloseFd1 (s : TableSt) : TableSt :=
  match s.fd1 with
  | some b => ⟨tdel s.table b, s.fd0, s.fd1, s.pipeCount⟩
  | none => s

/-- One pipe-loop iteration, parent branch: `pipe(fd)`, fork (child path
not tracked), `dup2(fd[0], STDIN_FILENO)`, `close(fd[1])`. -/
def tblIter (s : TableSt) : TableSt :=
  tblCloseFd1 (tblDup2Stdin (tblPipe s))

/-- Iterate the loop body `k` times. -/
def tblLoop : Nat → TableSt → TableSt
  | 0, s => s
  | k + 1, s => tblLoop k (tblIter s)

/-- The parent's table across one full pipeline launch of `n` segments:
`n - 1` loop iterations, then the trailing `dup2(fd[0], STDIN_FILENO)` and
`close(fd[1])` of lines 142 and 149. -/
def tblRun (n : Nat) (s : TableSt) : TableSt :=
  tblCloseFd1 (tblDup2Stdin (tblLoop (n - 1) s))

/-- The `dup2(ORIG_STDIN, STDIN_FILENO)` performed at the top of every read
loop iteration (`src/main.cpp` line 69). -/
def loopTop (s : TableSt) : TableSt :=
  ⟨dup2T s.table 3 0, s.fd0, s.fd1, s.pipeCount⟩

/-- Does the parent's table still hold any pipe end? -/
def hasOpenPipeEnd (t : List (Nat × FdObj)) : Bool :=
  t.any (fun p =>
    match p.2 with
    | .terminal => false
    | .pipeRd _ => true
    | .pipeWr _ => true)

/-! ### The read loop's built-in dispatch -/

/-- Where one read-loop iteration goes after the built-in `if`/`else if`
chain (`src/main.cpp` lines 77-105). -/
inductive LoopStep
  | exitShell
  | builtinThenPrompt
  | cdNoArgFallsThrough
  | pipeline
  deriving DecidableEq

/-- The dispatch chain of `main`, mirrored clause by clause
(`!input.rfind(x, 0)` is a prefix test).  Returns the control-flow outcome
and, when `handle_cd` is called, its argument: note that the `input == "cd"`
branch calls `handle_cd("")` but, alone among the built-in branches, has no
`continue`, so control falls through to the pipeline code. -/
def dispatch (input : List Char) : LoopStep × Option (List Char) :=
  if input = toL "exit" then (.exitShell, none)
  else if input = toL "clear" ∨ input = toL "cls" then (.builtinThenPrompt, none)
  else if input = toL "cd" then (.cdNoArgFallsThrough, some [])
  else if (toL "cd ").isPrefixOf input then (.builtinThenPrompt, some (input.drop 3))
  else if input = toL "pwd" ∨ (toL "pwd ").isPrefixOf input then (.builtinThenPrompt, none)
  else if (toL "color").isPrefixOf input then (.builtinThenPrompt, none)
  else (.pipeline, none)

/-! ### Helper lemmas: shape of the orchestration trace after `k` loop iterations -/

theorem orchLoopGo_pipes (k : Nat) : ∀ (i : Nat) (s : OrchTrace),
    (orchLoopGo k i s).pipes = s.pipes + k := by
  induction k with
  | zero => intro i s; simp [orchLoopGo]
  | succ k ih =>
    intro i s
    rw [orchLoopGo, ih]
    simp [orchIter]
    omega

theorem orchLoopGo_duped (k : Nat) : ∀ (i : Nat) (s : OrchTrace),
    (orchLoopGo k i s).duped =
      s.duped ++ (List.range k).map (fun j => FdVal.pipeRd (i + j)) := by
  induction k with
  | zero => intro i s; simp [orchLoopGo]
  | succ k ih =>
    intro i s
    rw [orchLoopGo, ih]
    have hm : ((fun j => FdVal.pipeRd (i + j)) ∘ Nat.succ) =
        (fun j => FdVal.pipeRd (i + 1 + j)) := by
      funext j
      simp only [Function.comp_apply]
      congr 1
      omega
    simp [orchIter, List.range_succ_eq_map, List.map_map, hm]

theorem orchLoopGo_closed (k : Nat) : ∀ (i : Nat) (s : OrchTrace),
    (orchLoopGo k i s).closed =
      s.closed ++ (List.range k).map (fun j => FdVal.pipeWr (i + j)) := by
  induction k with
  | zero => intro i s; simp [orchLoopGo]
  | succ k ih =>
    intro i s
    rw [orchLoopGo, ih]
    have hm : ((fun j => FdVal.pipeWr (i + j)) ∘ Nat.succ) =
        (fun j => FdVal.pipeWr (i + 1 + j)) := by
      funext j
      simp only [Function.comp_apply]
      congr 1
      omega
    simp [orchIter, List.range_succ_eq_map, List.map_map, hm]

theorem orchLoopGo_fd0 (k : Nat) : ∀ (i : Nat) (s : OrchTrace), 1 ≤ k →
    (orchLoopGo k i s).fd0 = FdVal.pipeRd (i + k - 1) := by
  induction k with
  | zero => intro i s h; omega
  | succ k ih =>
    intro i s _
    rw [orchLoopGo]
    cases Nat.eq_zero_or_pos k with
    | inl h0 => subst h0; simp [orchLoopGo, orchIter]
    | inr hpos =>
      rw [ih (i + 1) (orchIter i s) hpos]
      congr 1
      omega

theorem orchLoopGo_fd1 (k : Nat) : ∀ (i : Nat) (s : OrchTrace), 1 ≤ k →
    (orchLoopGo k i s).fd1 = FdVal.pipeWr (i + k - 1) := by
  induction k with
  | zero => intro i s h; omega
  | succ k ih =>
    intro i s _
    rw [orchLoopGo]
    cases Nat.eq_zero_or_pos k with
    | inl h0 => subst h0; simp [orchLoopGo, orchIter]
    | inr hpos =>
      rw [ih (i + 1) (orchIter i s) hpos]
      congr 1
      omega

theorem orchRun_closed (n : Nat) (h : 2 ≤ n) :
    (orchRun n).closed =
      (List.range (n - 1)).map FdVal.pipeWr ++ [FdVal.pipeWr (n - 2)] := by
  have h1 : 1 ≤ n - 1 := by omega
  have h2 : 0 + (n - 1) - 1 = n - 2 := by omega
  have hfd := orchLoopGo_fd1 (n - 1) 0 orchInit h1
  unfold orchRun
  simp only [orchLoopGo_closed, hfd]
  simp only [orchInit, List.nil_append, h2]
  simp

theorem orchRun_duped (n : Nat) (h : 2 ≤ n) :
    (orchRun n).duped =
      (List.range (n - 1)).map FdVal.pipeRd ++ [FdVal.pipeRd (n - 2)] := by
  have h1 : 1 ≤ n - 1 := by omega
  have h2 : 0 + (n - 1) - 1 = n - 2 := by omega
  have hfd := orchLoopGo_fd0 (n - 1) 0 orchInit h1
  unfold orchRun
  simp only [orchLoopGo_duped, hfd]
  simp only [orchInit, List.nil_append, h2]
  simp

theorem orchRun_pipes (n : Nat) : (orchRun n).pipes = n - 1 := by
  unfold orchRun
  simp [orchLoopGo_pipes, orchInit]

/-! ### Claim C1 -/

/-- C1, counterexample: segmenting `a | b | c` does not yield the segments
`["a","b","c"]`: the code keeps the space preceding each separator and drops
the final one-character segment `c`. -/
theorem c1_counterexample :
    splitByPipeSegs (toL "a | b | c") ≠ [toL "a", toL "b", toL "c"] := by
  decide

/-- C1, amended: each `|`/`;` ends the current segment, the segment keeps the
text up to the separator itself (including the space before it) while one
space after the separator is skipped, and the trailing remainder is appended
only when at least two characters long; so `a | b | c` yields the segments
`["a ", "b "]` (the final one-character segment `c` is dropped) with
`background = false`. -/
theorem c1_segmentation_actual :
    splitByPipe (toL "a | b | c") = [toL "a ", toL "b ", toL "-"] ∧
    splitByPipeSegs (toL "a | b | c") = [toL "a ", toL "b "] ∧
    splitBg (toL "a | b | c") = false := by
  decide

/-! ### Claim C2 -/

/-- C2, counterexample: for a single-segment pipeline the pipe loop runs zero
times, yet the parent still executes `dup2(fd[0], STDIN_FILENO)` and
`close(fd[1])` on the uninitialized `fd` array, so not every descriptor it
duplicates onto stdin or closes came from a `pipe` call of that run. -/
theorem c2_counterexample : parentFdsFromPipes 1 = false := by decide

/-- C2, amended: a single segment is indeed the base case of the same loop
(redirection and background flag go through the same `run_cmd` call as any
stage), but the claimed descriptor provenance only holds for `n ≥ 2`
pipelines; at `n = 1` the parent's trailing `dup2` and `close` receive the
indeterminate contents of the uninitialized `int fd[2]`. -/
theorem c2_single_segment_base_case (n : Nat) (h : 2 ≤ n) :
    parentFdsFromPipes n = true ∧
    (orchRun 1).duped = [FdVal.uninit] ∧
    (orchRun 1).closed = [FdVal.uninit] := by
  refine ⟨?_, by decide, by decide⟩
  unfold parentFdsFromPipes
  rw [List.all_eq_true]
  intro v hv
  rw [orchRun_duped n h, orchRun_closed n h] at hv
  rw [orchRun_pipes]
  simp only [List.mem_append, List.mem_map, List.mem_range,
    List.mem_singleton] at hv
  rcases hv with ((⟨j, hj, rfl⟩ | rfl) | (⟨j, hj, rfl⟩ | rfl)) <;>
    simp only [fromThisRun, decide_eq_true_eq] <;> omega

/-- C2, witness at `n = 2`. -/
theorem c2_witness :
    parentFdsFromPipes 2 = true ∧
    (orchRun 1).duped = [FdVal.uninit] ∧
    (orchRun 1).closed = [FdVal.uninit] :=
  c2_single_segment_base_case 2 (by decide)

/-! ### Claim C3 -/

/-- C3: the non-blocking wait the read loop performs is
`waitid(P_PID, 0, &status, WNOHANG)`, which asks for the child whose process
id is 0; since every real child has a positive pid, the call collects
nothing, whatever zombies exist — a `P_ALL` wait with the same arguments
would have collected one.  The loop therefore never reaps background
children, contradicting the claim. -/
theorem c3_loop_reap_collects_nothing (zs : List Nat) (h : ∀ p ∈ zs, 0 < p) :
    loopReap zs = none ∧ waitidReap IdType.P_ALL 0 zs = zs.head? := by
  refine ⟨?_, rfl⟩
  unfold loopReap waitidReap
  rw [List.find?_eq_none]
  intro p hp
  have hpos := h p hp
  simp only [decide_eq_true_eq]
  omega

/-- C3, witness: with zombie children 7 and 8 the loop's wait reaps nothing. -/
theorem c3_witness :
    loopReap [7, 8] = none ∧
    waitidReap IdType.P_ALL 0 [7, 8] = [7, 8].head? :=
  c3_loop_reap_collects_nothing [7, 8] (by decide)

/-! ### Claim C4 -/

/-- C4, counterexample: after launching a two-segment pipeline the parent's
descriptor table still holds an open pipe end (the read end of pipe 0 at
descriptor 4), and after a second run of the same pipeline that stale read
end from run 1 is still open — the runs are not independent. -/
theorem c4_counterexample :
    hasOpenPipeEnd (tblRun 2 (loopTop tInit)).table = true ∧
    tget (tblRun 2 (loopTop (tblRun 2 (loopTop tInit)))).table 4 =
      some (FdObj.pipeRd 0) := by
  decide

/-- C4, amended: the parent closes every pipe's write end after handing it to
the child (and redundantly re-closes the last one after the final fork) but
never closes any read end: `dup2(fd[0], STDIN_FILENO)` leaves the read end's
original descriptor open, so each run leaks its pipes' read ends (e.g. pipe 0's
read end is still open at descriptor 4 after a two-segment run). -/
theorem c4_write_ends_only (n i : Nat) (h : 2 ≤ n) (hi : i < n - 1) :
    FdVal.pipeWr i ∈ (orchRun n).closed ∧
    FdVal.pipeRd i ∉ (orchRun n).closed ∧
    tget (tblRun 2 (loopTop tInit)).table 4 = some (FdObj.pipeRd 0) := by
  rw [orchRun_closed n h]
  refine ⟨?_, ?_, by decide⟩
  · exact List.mem_append.2 (Or.inl (List.mem_map.2 ⟨i, List.mem_range.2 hi, rfl⟩))
  · intro hmem
    simp only [List.mem_append, List.mem_map, List.mem_range,
      List.mem_singleton] at hmem
    rcases hmem with ⟨j, _, hj⟩ | hj
    · exact FdVal.noConfusion hj
    · exact FdVal.noConfusion hj

/-- C4, witness at `n = 3`, `i = 1`. -/
theorem c4_witness :
    FdVal.pipeWr 1 ∈ (orchRun 3).closed ∧
    FdVal.pipeRd 1 ∉ (orchRun 3).closed ∧
    tget (tblRun 2 (loopTop tInit)).table 4 = some (FdObj.pipeRd 0) :=
  c4_write_ends_only 3 1 (by decide) (by decide)

/-! ### Claim C5 -/

/-- C5: for every token list with more than one element, `run_cmd`'s
redirection logic coincides with the specified else-if chain on the
second-to-last token (`">>"` → append, first character `'>'` → truncate,
`"<"` → input, removing the last two tokens on a hit): although the source
writes three independent `if`s, the `">>"` case also satisfies the
first-character test and simply carries the append flag word, and the `"<"`
case is disjoint from both. -/
theorem c5_redirection_resolution (tok : List (List Char)) (h : 1 < tok.length) :
    run_cmd_resolve tok = resolveAsSpecified tok := by
  have harith : tok.length + 1 - 2 - 1 = tok.length - 2 := by omega
  have hlen : tok.length + 1 - 1 = tok.length := by omega
  simp only [run_cmd_resolve, run_cmd_plan, planRedirect, resolveAsSpecified,
    if_pos h]
  generalize tok.getD (tok.length - 2) [] = a
  by_cases h1 : a = toL ">>"
  · subst h1
    simp +decide [harith]
    try omega
  · by_cases h2 : a.headD nullChar = '>'
    · have h3 : ¬(a = toL "<") := by
        intro e
        rw [e] at h2
        exact absurd h2 (by decide)
      rw [List.headD_eq_head?] at h2
      simp +decide [h1, h2, h3, harith]
      try omega
    · by_cases h3 : a = toL "<"
      · subst h3
        simp +decide [harith]
        try omega
      · rw [List.headD_eq_head?] at h2
        simp +decide [h1, h2, h3, hlen, List.take_length]
        try omega

/-- C5, witness: `["ls","-l",">","out.txt"]` resolves to `["ls","-l"]` with a
truncating output redirect to `out.txt`. -/
theorem c5_witness :
    1 < ([toL "ls", toL "-l", toL ">", toL "out.txt"]).length ∧
    run_cmd_resolve [toL "ls", toL "-l", toL ">", toL "out.txt"] =
      ([toL "ls", toL "-l"], RedirectSpec.outputTruncate (toL "out.txt")) := by
  refine ⟨by decide, ?_⟩
  exact (c5_redirection_resolution _ (by decide)).trans (by decide)

/-! ### Claim C6 -/

/-- C6, counterexample: the append redirect (`cat >> log`) opens with
`FILEFLAGS_APPEND`, which lacks `O_CREAT`, so when the target is absent the
open fails instead of creating the file; and the truncate flags create an
absent file with mode `RW_PERMS = 0666` (group/other write too), not
0644. -/
theorem c6_counterexample :
    run_cmd_plan [toL "cat", toL ">>", toL "log"] =
      { argv := [toL "cat"]
      , stdoutOpen := some (toL "log", FILEFLAGS_APPEND)
      , stdinOpen := none } ∧
    openSem false FILEFLAGS_APPEND RW_PERMS 0 = OpenOutcome.failed ∧
    openSem false FILEFLAGS RW_PERMS 0 = OpenOutcome.fdOpened (some 438) := by
  decide

/-- C6, amended: output-truncate opens with `O_CREAT|O_WRONLY|O_TRUNC` plus
the misplaced `S_*` permission macros in the flags word and mode `0666` — an
absent file is created with permission bits `0666 & ~umask` (not
0644-equivalent: group/other get write under umask 0), and since on Linux
`S_IWUSR` equals `O_EXCL`, opening an existing target fails; output-append
lacks `O_CREAT`, so it appends only to a pre-existing file and fails when the
path is absent; input redirection opens read-only and fails when the path
does not pre-exist. -/
theorem c6_redirect_open_semantics :
    redirectOpen (.outputTruncate (toL "f")) false 0 =
      some (OpenOutcome.fdOpened (some RW_PERMS)) ∧
    RW_PERMS = 438 ∧
    redirectOpen (.outputTruncate (toL "f")) true 0 = some OpenOutcome.failed ∧
    redirectOpen (.outputAppend (toL "f")) false 0 = some OpenOutcome.failed ∧
    redirectOpen (.outputAppend (toL "f")) true 0 =
      some (OpenOutcome.fdOpened none) ∧
    redirectOpen (.input (toL "f")) false 0 = some OpenOutcome.failed ∧
    redirectOpen (.input (toL "f")) true 0 = some (OpenOutcome.fdOpened none) ∧
    FILEFLAGS_APPEND &&& O_CREAT = 0 ∧
    FILEFLAGS &&& O_EXCL ≠ 0 := by
  decide

/-! ### Claim C7 -/

/-- C7, counterexample: segmenting `a & ` does not yield the trimmed segment
`["a"]`; the `&` stays in the segment text. -/
theorem c7_counterexample :
    splitByPipeSegs (toL "a & ") ≠ [toL "a"] := by
  decide

/-- C7, amended: an unquoted `&` anywhere in the line sets
`background = true` without acting as a separator (a quoted `&` does not),
but the `&` character is not stripped from the segment text: `a & ` yields
the single segment `["a & "]` with `background = true`, and its `&` survives
tokenization as an argument token; only when the `&` is the final character
(as in `a &`) does the tokenizer's drop of a one-character trailing remainder
remove it before execution. -/
theorem c7_background_marker :
    splitByPipe (toL "a & ") = [toL "a & ", toL "&"] ∧
    splitBg (toL "a & ") = true ∧
    tokenize (toL "a & ") = [toL "a", toL "&"] ∧
    tokenize (toL "a &") = [toL "a"] ∧
    splitBg (toL "\"a&b\"") = false := by
  decide

/-! ### Claim C8 -/

/-- C8, counterexample: tokenizing the empty string does not yield the empty
list. -/
theorem c8_counterexample : tokenize (toL "") ≠ [] := by decide

/-- C8, amended: tokenizing the empty string yields a single empty token
`[""]` (the unsigned `start < size() - 1` guard underflows for the empty
string), and a whitespace-only segment yields one empty token per space —
never the empty list. -/
theorem c8_tokenize_empty :
    tokenize (toL "") = [[]] ∧
    tokenize (toL " ") = [[]] ∧
    tokenize (toL "  ") = [[], []] := by
  decide

/-! ### Claim C9 -/

/-- C9: whenever the scanning loop ends with the trailing remainder exactly
one character long (`start + 1 = size`), both `tokenize` and `splitByPipe`
omit that final one-character token/segment, because each appends the
remainder only when `start < size - 1`. -/
theorem c9_trailing_single_char_dropped :
    (∀ s : List Char, (tokScan s).2 + 1 = s.length →
      tokenize s = (tokScan s).1) ∧
    (∀ s : List Char, (pipeScan s).2.1 + 1 = s.length →
      splitByPipe s =
        (pipeScan s).1 ++ [if (pipeScan s).2.2 then ['&'] else ['-']]) := by
  constructor
  · intro s hs
    simp only [tokenize]
    rw [← hs]
    simp [sizeSub1]
  · intro s hs
    simp only [splitByPipe]
    rw [← hs]
    simp [sizeSub1]

/-- C9, witness: `echo a` tokenizes to `["echo"]` (the one-character `a` is
dropped) and `a|b` segments to `["a"]` plus the `"-"` marker (the
one-character `b` is dropped). -/
theorem c9_witness :
    tokenize (toL "echo a") = [toL "echo"] ∧
    splitByPipe (toL "a|b") = [toL "a", toL "-"] := by
  constructor
  · exact (c9_trailing_single_char_dropped.1 (toL "echo a") (by decide)).trans
      (by decide)
  · exact (c9_trailing_single_char_dropped.2 (toL "a|b") (by decide)).trans
      (by decide)

/-! ### Claim C10 -/

/-- C10, counterexample: on input `cd` the loop does fall through to the
pipeline code, but what the parent then duplicates onto its standard input is
not a pipe descriptor — no pipe was created, and the `dup2` receives the
uninitialized `fd[0]`. -/
theorem c10_counterexample :
    (dispatch (toL "cd")).1 = LoopStep.cdNoArgFallsThrough ∧
    (orchRun 1).duped = [FdVal.uninit] ∧
    fromThisRun (orchRun 1).pipes FdVal.uninit = false := by
  decide

/-- C10, amended: input `cd` calls `handle_cd("")` (changing to `HOME`) and,
alone among the built-in branches, has no `continue`: the line falls through
to pipeline parsing, which yields the single segment `["cd"]`, so the parent
duplicates the uninitialized `fd[0]` (not a descriptor from any pipe call)
onto stdin and forks a child whose launch plan execs an external `cd` with no
redirect — whereas `cd <dir>`, `pwd` and `clear` all end the iteration before
the pipeline code. -/
theorem c10_cd_fallthrough :
    dispatch (toL "cd") = (LoopStep.cdNoArgFallsThrough, some []) ∧
    dispatch (toL "cd /tmp") = (LoopStep.builtinThenPrompt, some (toL "/tmp")) ∧
    dispatch (toL "pwd") = (LoopStep.builtinThenPrompt, none) ∧
    dispatch (toL "clear") = (LoopStep.builtinThenPrompt, none) ∧
    splitByPipeSegs (toL "cd") = [toL "cd"] ∧
    splitBg (toL "cd") = false ∧
    run_cmd_resolve (tokenize (toL "cd")) = ([toL "cd"], RedirectSpec.noRedirect) ∧
    (orchRun 1).duped = [FdVal.uninit] ∧
    (orchRun 1).closed = [FdVal.uninit] := by
  decide

end MyShell
